import Mathlib

/-!
# phlog: a shallow embedding of `include/phlog.h`

The header is one logging function (`log_impl`, reached through `log`), a
basename helper (`get_short_filename`) and `setup`, which opens the
process-wide `std::ofstream log_file`.

Modelling conventions.

* A C `char` is a `Char`; a run of chars is a `List Char` (`Str`).  A
  `const char*` argument is represented by the characters in front of its
  terminator.
* `printf` appends to the `stdout` component of the state.  `log_file << x`
  appends to the content of the stream when the stream is open and has not
  failed, and does nothing once it has failed; `open` on a stream that is
  already open makes it fail.  Input and output errors of the operating
  system during a write are not modelled.
* `format, args` are a `Message`: the text they render to, whether rendering
  fetches an argument, and what a second rendering from the same `va_list`
  does.  The header hands one `va_list` to `vsnprintf` and then to `vprintf`
  without `va_copy`; the C standard leaves the second rendering open when
  the first one fetched arguments, so its outcome is an input of the model.
* `int` arguments are `Int`; `%d` and `operator<<(int)` print them in decimal.
* The two compile-time switches (`_WIN32`, `_PHLOG_USE_256_COLORS`) and the
  answer of the Win32 console queries are the fields of `Platform`.
-/

namespace phlog

/-- A sequence of C `char`s. -/
abbrev Str := List Char

/-! ## Warning levels -/

def LOGGER_NONE : Int := 0
def LOGGER_SUCCESS : Int := 1
def LOGGER_WARNING : Int := 2
def LOGGER_ERROR : Int := 3
def LOGGER_CRITICAL : Int := 4

/-! ## Build switches and console environment -/

/-- Compile-time switches of the header and what the Win32 console calls answer.
`console_handle_valid` is `hConsole != INVALID_HANDLE_VALUE`,
`console_mode_readable` is the result of `GetConsoleMode(hConsole, &mode)`;
both are only consulted in a `_WIN32` build. -/
structure Platform where
  win32 : Bool
  use_256_colors : Bool
  console_handle_valid : Bool
  console_mode_readable : Bool
deriving DecidableEq

/-- The `_WIN32` block of `log_impl` executes `return;`. -/
def Platform.returns_early (pf : Platform) : Bool :=
  pf.win32 && (!pf.console_handle_valid || !pf.console_mode_readable)

/-! ## Colour codes -/

def COLOR_DEFAULT (pf : Platform) : Str :=
  if pf.use_256_colors then "\x1b[38;2;255;255;255m".toList else "\x1b[38;5;15m".toList

def COLOR_NONE (pf : Platform) : Str :=
  if pf.use_256_colors then "\x1b[38;2;211;211;211m".toList else "\x1b[38;5;7m".toList

def COLOR_SUCCESS (pf : Platform) : Str :=
  if pf.use_256_colors then "\x1b[38;2;40;130;30m".toList else "\x1b[38;5;2m".toList

def COLOR_WARNING (pf : Platform) : Str :=
  if pf.use_256_colors then "\x1b[38;2;130;130;30m".toList else "\x1b[38;5;11m".toList

def COLOR_ERROR (pf : Platform) : Str :=
  if pf.use_256_colors then "\x1b[38;2;130;30;30m".toList else "\x1b[38;5;1m".toList

def COLOR_CRITICAL (pf : Platform) : Str :=
  if pf.use_256_colors then "\x1b[38;2;70;4;4m".toList else "\x1b[38;5;9m".toList

def COLOR_DARK (pf : Platform) : Str :=
  if pf.use_256_colors then "\x1b[38;2;89;89;89m".toList else "\x1b[38;5;8m".toList

/-! ## Library primitives the header uses -/

/-- Decimal rendering of an `int`, as `%d` and `operator<<(int)` produce it. -/
def decimal (n : Int) : Str :=
  match n with
  | Int.ofNat k => Nat.toDigits 10 k
  | Int.negSucc k => '-' :: Nat.toDigits 10 (k + 1)

/-- The text of a C string held in a char array: the chars in front of the first NUL. -/
def c_str (a : Str) : Str := a.takeWhile (fun c => c != '\x00')

/-- The array content `vsnprintf(buffer, size, format, args)` leaves in `buffer`:
at most `size - 1` chars of the rendered output, then the terminator. -/
def vsnprintf (size : Nat) (rendered : Str) : Str :=
  rendered.take (size - 1) ++ ['\x00']

/-- Method `std::string::find_last_of(set)`: the position of the last char
that occurs in `set`, `none` standing for `npos`. -/
def find_last_of : Str → Str → Option Nat
  | [], _ => none
  | c :: cs, set =>
    match find_last_of cs set with
    | some i => some (i + 1)
    | none => if c ∈ set then some 0 else none

/-- Method `std::string::substr(pos)` for `pos ≤ size()`. -/
def substr (s : Str) (pos : Nat) : Str := s.drop pos

/-! ## Process state -/

/-- The `std::ofstream log_file`: whether it is associated with a file,
whether its failbit or badbit is set, and the characters written to the file
so far. -/
structure OfStream where
  is_open : Bool
  fail : Bool
  content : Str
deriving DecidableEq

/-- Everything a call can observe or change: the global stream, what has been
handed to standard output, a count of the open attempts made, and whether the
process was killed inside a library call. -/
structure World where
  log_file : OfStream
  stdout : Str
  open_attempts : Nat
  died : Bool
deriving DecidableEq

/-- State at program start: `log_file` default-constructed, nothing printed. -/
def World.initial : World := ⟨⟨false, false, []⟩, [], 0, false⟩

/-- Call `printf` with output `text`. -/
def printf (w : World) (text : Str) : World :=
  { w with stdout := w.stdout ++ text }

/-- Effect of `log_file << text`: nothing on a stream that has failed, an
append on an open stream, and a failure on a stream without a file. -/
def World.put (w : World) (text : Str) : World :=
  if w.log_file.fail then w
  else if w.log_file.is_open then
    { w with log_file := { w.log_file with content := w.log_file.content ++ text } }
  else
    { w with log_file := { w.log_file with fail := true } }

/-- Method `log_file.open(filename)`; `granted` is whether the operating system
lets the file be created.  A stream that is already associated with a file
refuses the call, keeps its association and sets its failbit; a refused
creation sets the failbit; a fresh association clears the flags and starts
with an empty (truncated) file. -/
def World.open (w : World) (granted : Bool) : World :=
  { w with
    open_attempts := w.open_attempts + 1
    log_file :=
      if w.log_file.is_open then { w.log_file with fail := true }
      else if granted then ⟨true, false, []⟩
      else { w.log_file with fail := true } }

/-! ## Format and arguments -/

/-- What the `format, args` of a call amount to: the text they render to,
whether rendering fetches an argument (`va_arg` is invoked), and what a
rendering prints from a `va_list` that an earlier rendering has already
fetched from: `some t` for the text `t` (`t` is `rendered` where the
`va_list` is handed on by value), `none` when the process is killed. -/
structure Message where
  rendered : Str
  takes_args : Bool
  reread : Option Str
deriving DecidableEq

/-- A format without conversions: it renders to itself and fetches nothing. -/
def Message.plain (text : Str) : Message := ⟨text, false, none⟩

/-- What `vprintf(format, args)` on line 174 prints; `consumed` says whether
`vsnprintf` on line 168 has run on the same `va_list`. -/
def vprintf_text (consumed : Bool) (msg : Message) : Option Str :=
  if consumed && msg.takes_args then msg.reread else some msg.rendered

/-! ## The header's functions -/

/-- Function to get short filename (without path). -/
def get_short_filename (filepath : Str) : Str :=
  let fullpath := filepath
  match find_last_of fullpath "/\\".toList with
  | some found => substr fullpath (found + 1)
  | none => fullpath

/-- The first `switch` of `log_impl`: the text it prints for the warning level. -/
def console_switch (pf : Platform) (logger_level : Int) : Str :=
  if logger_level = LOGGER_NONE then
    COLOR_DEFAULT pf ++ "[PHLOG]    ".toList ++ COLOR_NONE pf
  else if logger_level = LOGGER_SUCCESS then
    COLOR_SUCCESS pf ++ "[SUCCESS] ".toList ++ COLOR_NONE pf ++ " ".toList
  else if logger_level = LOGGER_WARNING then
    COLOR_WARNING pf ++ "[WARNING] ".toList ++ COLOR_NONE pf ++ " ".toList
  else if logger_level = LOGGER_ERROR then
    COLOR_ERROR pf ++ "[ERROR] ".toList ++ COLOR_NONE pf ++ "   ".toList
  else if logger_level = LOGGER_CRITICAL then
    COLOR_CRITICAL pf ++ "[CRITICAL] ".toList ++ COLOR_NONE pf
  else
    COLOR_NONE pf ++ "[UNKNOWN]    ".toList

/-- The second `switch` of `log_impl`: the text it sends to `log_file`. -/
def file_switch (logger_level : Int) : Str :=
  if logger_level = LOGGER_NONE then "[PHLOG]     ".toList
  else if logger_level = LOGGER_SUCCESS then "[SUCCESS]  ".toList
  else if logger_level = LOGGER_WARNING then "[WARNING]  ".toList
  else if logger_level = LOGGER_ERROR then "[ERROR]    ".toList
  else if logger_level = LOGGER_CRITICAL then "[CRITICAL] ".toList
  else "[".toList ++ decimal logger_level ++ "] ".toList

/-- Main logging function.  `msg` stands for `format, args`.  The basename
goes out through `.c_str()`, which hands on every char of it, the path being
a `const char*`; `buffer` goes out as the C string it holds. -/
def log_impl (pf : Platform) (w : World) (file : Str) (line : Int) (logger_level : Int)
    (msg : Message) : World :=
  if pf.returns_early then w
  else
    -- Print the warning level and set the color
    let w1 := printf w (console_switch pf logger_level)
    let w2 := printf w1 (COLOR_DARK pf ++ " (".toList ++ get_short_filename file ++ " ".toList
      ++ decimal line ++ ")".toList ++ COLOR_NONE pf ++ " ".toList)
    -- Write to file
    let consumed := w2.log_file.is_open
    let w3 :=
      if w2.log_file.is_open then
        let f1 := w2.put (file_switch logger_level)
        let buffer := vsnprintf 1024 msg.rendered
        (((((((f1.put " (".toList).put (get_short_filename file)).put " ".toList).put
          (decimal line)).put ") ".toList).put (c_str buffer)).put "\n".toList)
      else w2
    match vprintf_text consumed msg with
    | none => { w3 with died := true }
    | some text =>
      let w4 := printf w3 text
      printf w4 (COLOR_DEFAULT pf ++ "\n".toList)

/-- Main variadic log function. -/
def log (pf : Platform) (w : World) (file : Str) (line : Int) (logger_level : Int)
    (msg : Message) : World :=
  log_impl pf w file line logger_level msg

/-- Function `setup`.  The file name (`get_log_filename`, read off the clock)
only selects which file the operating system is asked for; `granted` is its
answer.  `src_file` is the expansion of `__FILE__`; the call sits on line 68. -/
def setup (pf : Platform) (w : World) (granted : Bool) (src_file : Str) : Bool × World :=
  let w1 := w.open granted
  if !w1.log_file.is_open then
    (true, log pf w1 src_file 68 LOGGER_CRITICAL
      (Message.plain "Failed to initialize phlog".toList))
  else
    (false, w1)

/-! ## Observations used to state the properties -/

/-- What a log call added to standard output. -/
def console_added (pf : Platform) (w : World) (file : Str) (line level : Int)
    (msg : Message) : Str :=
  (log pf w file line level msg).stdout.drop w.stdout.length

/-- What a log call added to the file. -/
def file_added (pf : Platform) (w : World) (file : Str) (line level : Int)
    (msg : Message) : Str :=
  (log pf w file line level msg).log_file.content.drop w.log_file.content.length

/-- Scanner behind `strip_ansi`; the flag says whether the scan is inside an
escape sequence (after ESC, up to the closing `m`). -/
def strip_ansi_aux : Bool → Str → Str
  | _, [] => []
  | false, c :: cs =>
    if c = '\x1b' then strip_ansi_aux true cs else c :: strip_ansi_aux false cs
  | true, c :: cs =>
    if c = 'm' then strip_ansi_aux false cs else strip_ansi_aux true cs

/-- Console text as a terminal shows it: every `ESC ... m` sequence removed. -/
def strip_ansi (s : Str) : Str := strip_ansi_aux false s

/-- A posix build with the default palette. -/
def posix : Platform := ⟨false, false, true, true⟩

/-- A world whose log file has been opened and is still empty. -/
def World.opened : World := ⟨⟨true, false, []⟩, [], 1, false⟩

/-- The call of the scenario, `"disk %s"` with `"full"`; the process is killed
when the arguments are fetched a second time. -/
def disk_full : Message := ⟨"disk full".toList, true, none⟩

/-- What the console receives from line 174 on: the text `vprintf` prints, the
default colour code and a newline, or nothing more when the process is killed. -/
def console_rest (pf : Platform) : Option Str → Str
  | some text => text ++ COLOR_DEFAULT pf ++ "\n".toList
  | none => []

/-- State after one successful `setup` and one log call. -/
def World.logged_once : World :=
  log posix (setup posix World.initial true "include/phlog.h".toList).2 "a.c".toList 1
    LOGGER_NONE (Message.plain "one".toList)

/-- State after a second `setup` in the same process. -/
def World.set_up_twice : World :=
  (setup posix World.logged_once true "include/phlog.h".toList).2

/-- A `_WIN32` build whose console handle is invalid. -/
def win32_no_console : Platform := ⟨true, false, false, true⟩

/-! ## State bookkeeping -/

@[simp] theorem printf_stdout (w : World) (t : Str) : (printf w t).stdout = w.stdout ++ t := rfl

@[simp] theorem printf_log_file (w : World) (t : Str) : (printf w t).log_file = w.log_file := rfl

@[simp] theorem printf_open_attempts (w : World) (t : Str) :
    (printf w t).open_attempts = w.open_attempts := rfl

@[simp] theorem put_stdout (w : World) (t : Str) : (w.put t).stdout = w.stdout := by
  unfold World.put
  split_ifs <;> rfl

@[simp] theorem put_open_attempts (w : World) (t : Str) :
    (w.put t).open_attempts = w.open_attempts := by
  unfold World.put
  split_ifs <;> rfl

@[simp] theorem put_is_open (w : World) (t : Str) :
    (w.put t).log_file.is_open = w.log_file.is_open := by
  unfold World.put
  split_ifs <;> rfl

theorem put_failed (w : World) (t : Str) (hf : w.log_file.fail = true) : w.put t = w := by
  simp [World.put, hf]

theorem put_put (w : World) (a b : Str) : (w.put a).put b = w.put (a ++ b) := by
  unfold World.put
  cases hf : w.log_file.fail <;> cases ho : w.log_file.is_open <;> simp [hf, ho]

theorem put_good_log_file (w : World) (t : Str) (ho : w.log_file.is_open = true)
    (hg : w.log_file.fail = false) :
    (w.put t).log_file = ⟨true, false, w.log_file.content ++ t⟩ := by
  simp [World.put, ho, hg]

theorem put_printf (w : World) (a t : Str) :
    ((printf w a).put t).log_file = (w.put t).log_file := by
  unfold World.put printf
  cases hf : w.log_file.fail <;> cases ho : w.log_file.is_open <;> simp [hf, ho]

theorem log_impl_early (pf : Platform) (w : World) (f : Str) (n lv : Int) (m : Message)
    (h : pf.returns_early = true) : log_impl pf w f n lv m = w := by
  simp [log_impl, h]

theorem log_impl_stdout (pf : Platform) (w : World) (f : Str) (n lv : Int) (m : Message)
    (h : pf.returns_early = false) :
    (log_impl pf w f n lv m).stdout = w.stdout ++ (console_switch pf lv ++ COLOR_DARK pf
      ++ " (".toList ++ get_short_filename f ++ " ".toList ++ decimal n ++ ")".toList
      ++ COLOR_NONE pf ++ " ".toList)
      ++ console_rest pf (vprintf_text w.log_file.is_open m) := by
  unfold log_impl
  rw [if_neg (by simp [h])]
  simp only [printf_log_file]
  cases hv : vprintf_text w.log_file.is_open m <;>
  by_cases ho : w.log_file.is_open = true <;>
  simp [ho, console_rest, List.append_assoc]

theorem log_impl_log_file (pf : Platform) (w : World) (f : Str) (n lv : Int) (m : Message)
    (h : pf.returns_early = false) :
    (log_impl pf w f n lv m).log_file
      = if w.log_file.is_open then
          (w.put (file_switch lv ++ " (".toList ++ get_short_filename f ++ " ".toList
            ++ decimal n ++ ") ".toList ++ c_str (vsnprintf 1024 m.rendered)
            ++ "\n".toList)).log_file
        else w.log_file := by
  unfold log_impl
  rw [if_neg (by simp [h])]
  simp only [printf_log_file, put_put]
  cases hv : vprintf_text w.log_file.is_open m <;>
  by_cases ho : w.log_file.is_open = true <;>
  simp [ho, put_printf, List.append_assoc]

theorem log_impl_content_good (pf : Platform) (w : World) (f : Str) (n lv : Int) (m : Message)
    (h : pf.returns_early = false) (ho : w.log_file.is_open = true)
    (hg : w.log_file.fail = false) :
    (log_impl pf w f n lv m).log_file.content = w.log_file.content ++ (file_switch lv
      ++ " (".toList ++ get_short_filename f ++ " ".toList ++ decimal n ++ ") ".toList
      ++ c_str (vsnprintf 1024 m.rendered) ++ "\n".toList) := by
  rw [log_impl_log_file pf w f n lv m h, if_pos ho, put_good_log_file _ _ ho hg]

theorem vprintf_text_reaches (w : World) (m : Message)
    (hm : w.log_file.is_open = false ∨ m.takes_args = false ∨ m.reread = some m.rendered) :
    vprintf_text w.log_file.is_open m = some m.rendered := by
  unfold vprintf_text
  rcases hm with h | h | h
  · simp [h]
  · simp [h]
  · split_ifs
    · exact h
    · rfl

/-! ## Facts about the library primitives -/

theorem find_last_of_none (s set : Str) (h : find_last_of s set = none) :
    ∀ c ∈ s, c ∉ set := by
  induction s with
  | nil => simp
  | cons a t ih =>
    simp only [find_last_of] at h
    cases ht : find_last_of t set with
    | some i => simp [ht] at h
    | none =>
      simp only [ht] at h
      by_cases ha : a ∈ set
      · simp [ha] at h
      · intro c hc
        rcases List.mem_cons.mp hc with rfl | hc
        · exact ha
        · exact ih ht c hc

theorem find_last_of_some (s set : Str) (i : Nat) (h : find_last_of s set = some i) :
    ∃ front c, s = front ++ c :: s.drop (i + 1) ∧ front.length = i ∧ c ∈ set
      ∧ ∀ d ∈ s.drop (i + 1), d ∉ set := by
  induction s generalizing i with
  | nil => simp [find_last_of] at h
  | cons a t ih =>
    simp only [find_last_of] at h
    cases ht : find_last_of t set with
    | some j =>
      simp only [ht, Option.some.injEq] at h
      subst h
      obtain ⟨front, c, h1, h2, h3, h4⟩ := ih j ht
      refine ⟨a :: front, c, ?_, by simp [h2], h3, ?_⟩
      · simp only [List.drop_succ_cons, List.cons_append]
        rw [← h1]
      · simpa using h4
    | none =>
      simp only [ht] at h
      by_cases ha : a ∈ set
      · simp only [ha, if_true, Option.some.injEq] at h
        subst h
        refine ⟨[], a, by simp, rfl, ha, ?_⟩
        simpa using find_last_of_none t set ht
      · simp [ha] at h

theorem c_str_vsnprintf (size : Nat) (m : Str) :
    c_str (vsnprintf size m) = c_str (m.take (size - 1)) := by
  unfold c_str vsnprintf
  induction m.take (size - 1) with
  | nil => simp [List.takeWhile]
  | cons a t ih =>
    by_cases ha : a = '\x00'
    · simp [List.takeWhile, ha]
    · simp [List.takeWhile_cons, ha, ih]

theorem c_str_of_no_nul (a : Str) (h : '\x00' ∉ a) : c_str a = a := by
  unfold c_str
  rw [List.takeWhile_eq_self_iff]
  intro c hc
  have : c ≠ '\x00' := fun e => h (e ▸ hc)
  simpa using this

theorem c_str_length_le (a : Str) : (c_str a).length ≤ a.length :=
  (List.takeWhile_sublist _).length_le

theorem c_str_sublist (a : Str) : (c_str a).Sublist a := List.takeWhile_sublist _

theorem digitChar_mem (k : Nat) (h : k < 10) : Nat.digitChar k ∈ "0123456789".toList := by
  interval_cases k <;> decide

theorem toDigitsCore_mem (fuel n : Nat) (ds : Str)
    (hds : ∀ c ∈ ds, c ∈ "0123456789".toList) :
    ∀ c ∈ Nat.toDigitsCore 10 fuel n ds, c ∈ "0123456789".toList := by
  induction fuel generalizing n ds with
  | zero => simpa [Nat.toDigitsCore] using hds
  | succ k ih =>
    have hd : ∀ c ∈ Nat.digitChar (n % 10) :: ds, c ∈ "0123456789".toList := by
      intro c hc
      rcases List.mem_cons.mp hc with rfl | hc
      · exact digitChar_mem _ (Nat.mod_lt _ (by decide))
      · exact hds c hc
    simp only [Nat.toDigitsCore]
    split
    · exact hd
    · exact ih _ _ hd

theorem decimal_mem (n : Int) : ∀ c ∈ decimal n, c ∈ "-0123456789".toList := by
  have key : ∀ k : Nat, ∀ c ∈ Nat.toDigits 10 k, c ∈ "-0123456789".toList := by
    intro k c hc
    have := toDigitsCore_mem (k + 1) k [] (by simp) c hc
    exact List.mem_cons_of_mem _ this
  intro c hc
  cases n with
  | ofNat k => exact key k c hc
  | negSucc k =>
    rcases List.mem_cons.mp hc with rfl | hc
    · decide
    · exact key _ c hc

theorem decimal_no_esc (n : Int) : '\x1b' ∉ decimal n := fun h =>
  absurd (decimal_mem n _ h) (by decide)

theorem strip_ansi_plain (xs ys : Str) (h : '\x1b' ∉ xs) :
    strip_ansi_aux false (xs ++ ys) = xs ++ strip_ansi_aux false ys := by
  induction xs with
  | nil => rfl
  | cons a t ih =>
    have ha : a ≠ '\x1b' := fun e => h (e ▸ List.mem_cons_self _ _)
    have ht : '\x1b' ∉ t := fun e => h (List.mem_cons_of_mem _ e)
    simp [strip_ansi_aux, ha, ih ht]

theorem strip_ansi_nil : strip_ansi_aux false [] = [] := rfl

theorem strip_COLOR_DEFAULT (pf : Platform) (ys : Str) :
    strip_ansi_aux false (COLOR_DEFAULT pf ++ ys) = strip_ansi_aux false ys := by
  cases hc : pf.use_256_colors <;> simp [COLOR_DEFAULT, hc, strip_ansi_aux]

theorem strip_COLOR_NONE (pf : Platform) (ys : Str) :
    strip_ansi_aux false (COLOR_NONE pf ++ ys) = strip_ansi_aux false ys := by
  cases hc : pf.use_256_colors <;> simp [COLOR_NONE, hc, strip_ansi_aux]

theorem strip_COLOR_SUCCESS (pf : Platform) (ys : Str) :
    strip_ansi_aux false (COLOR_SUCCESS pf ++ ys) = strip_ansi_aux false ys := by
  cases hc : pf.use_256_colors <;> simp [COLOR_SUCCESS, hc, strip_ansi_aux]

theorem strip_COLOR_WARNING (pf : Platform) (ys : Str) :
    strip_ansi_aux false (COLOR_WARNING pf ++ ys) = strip_ansi_aux false ys := by
  cases hc : pf.use_256_colors <;> simp [COLOR_WARNING, hc, strip_ansi_aux]

theorem strip_COLOR_ERROR (pf : Platform) (ys : Str) :
    strip_ansi_aux false (COLOR_ERROR pf ++ ys) = strip_ansi_aux false ys := by
  cases hc : pf.use_256_colors <;> simp [COLOR_ERROR, hc, strip_ansi_aux]

theorem strip_COLOR_CRITICAL (pf : Platform) (ys : Str) :
    strip_ansi_aux false (COLOR_CRITICAL pf ++ ys) = strip_ansi_aux false ys := by
  cases hc : pf.use_256_colors <;> simp [COLOR_CRITICAL, hc, strip_ansi_aux]

theorem strip_COLOR_DARK (pf : Platform) (ys : Str) :
    strip_ansi_aux false (COLOR_DARK pf ++ ys) = strip_ansi_aux false ys := by
  cases hc : pf.use_256_colors <;> simp [COLOR_DARK, hc, strip_ansi_aux]

theorem log_eq (pf : Platform) (w : World) (f : Str) (n lv : Int) (m : Message) :
    log pf w f n lv m = log_impl pf w f n lv m := rfl

theorem console_added_front (pf : Platform) (w : World) (f : Str) (n lv : Int) (m : Message)
    (h : pf.returns_early = false) :
    console_added pf w f n lv m = (console_switch pf lv ++ COLOR_DARK pf
      ++ " (".toList ++ get_short_filename f ++ " ".toList ++ decimal n ++ ")".toList
      ++ COLOR_NONE pf ++ " ".toList)
      ++ console_rest pf (vprintf_text w.log_file.is_open m) := by
  unfold console_added
  rw [log_eq, log_impl_stdout pf w f n lv m h, List.append_assoc, List.drop_left]

theorem console_added_eq (pf : Platform) (w : World) (f : Str) (n lv : Int) (m : Message)
    (h : pf.returns_early = false)
    (hm : w.log_file.is_open = false ∨ m.takes_args = false ∨ m.reread = some m.rendered) :
    console_added pf w f n lv m = console_switch pf lv ++ COLOR_DARK pf
      ++ " (".toList ++ get_short_filename f ++ " ".toList ++ decimal n ++ ")".toList
      ++ COLOR_NONE pf ++ " ".toList ++ m.rendered ++ COLOR_DEFAULT pf ++ "\n".toList := by
  rw [console_added_front pf w f n lv m h, vprintf_text_reaches w m hm]
  simp only [console_rest, List.append_assoc]

theorem log_stdout_eq (pf : Platform) (w : World) (f : Str) (n lv : Int) (m : Message)
    (h : pf.returns_early = false) :
    (log pf w f n lv m).stdout = w.stdout ++ console_added pf w f n lv m := by
  rw [console_added_front pf w f n lv m h, log_eq, log_impl_stdout pf w f n lv m h,
    List.append_assoc]

theorem file_added_eq (pf : Platform) (w : World) (f : Str) (n lv : Int) (m : Message)
    (h : pf.returns_early = false) (ho : w.log_file.is_open = true)
    (hg : w.log_file.fail = false) :
    file_added pf w f n lv m = file_switch lv
      ++ " (".toList ++ get_short_filename f ++ " ".toList ++ decimal n ++ ") ".toList
      ++ c_str (m.rendered.take 1023) ++ "\n".toList := by
  unfold file_added
  rw [log_eq, log_impl_content_good pf w f n lv m h ho hg, List.drop_left, c_str_vsnprintf]

theorem get_short_filename_none (p : Str) (h : find_last_of p "/\\".toList = none) :
    get_short_filename p = p := by
  simp only [get_short_filename, h]

theorem get_short_filename_some (p : Str) (i : Nat)
    (h : find_last_of p "/\\".toList = some i) :
    get_short_filename p = p.drop (i + 1) := by
  simp only [get_short_filename, substr, h]

theorem console_switch_none (pf : Platform) :
    console_switch pf LOGGER_NONE
      = COLOR_DEFAULT pf ++ "[PHLOG]    ".toList ++ COLOR_NONE pf := by
  unfold console_switch
  rw [if_pos rfl]

theorem console_switch_success (pf : Platform) :
    console_switch pf LOGGER_SUCCESS
      = COLOR_SUCCESS pf ++ "[SUCCESS] ".toList ++ COLOR_NONE pf ++ " ".toList := by
  unfold console_switch
  rw [if_neg (by decide), if_pos rfl]

theorem console_switch_warning (pf : Platform) :
    console_switch pf LOGGER_WARNING
      = COLOR_WARNING pf ++ "[WARNING] ".toList ++ COLOR_NONE pf ++ " ".toList := by
  unfold console_switch
  rw [if_neg (by decide), if_neg (by decide), if_pos rfl]

theorem console_switch_error (pf : Platform) :
    console_switch pf LOGGER_ERROR
      = COLOR_ERROR pf ++ "[ERROR] ".toList ++ COLOR_NONE pf ++ "   ".toList := by
  unfold console_switch
  rw [if_neg (by decide), if_neg (by decide), if_neg (by decide), if_pos rfl]

theorem console_switch_critical (pf : Platform) :
    console_switch pf LOGGER_CRITICAL
      = COLOR_CRITICAL pf ++ "[CRITICAL] ".toList ++ COLOR_NONE pf := by
  unfold console_switch
  rw [if_neg (by decide), if_neg (by decide), if_neg (by decide), if_neg (by decide),
    if_pos rfl]

theorem infix_mid (a b c d : Str) : b <:+: a ++ b ++ c ++ d :=
  ⟨a, c ++ d, by simp only [List.append_assoc]⟩

theorem c_str_take_nul (t : Str) (k : Nat) : c_str (('\x00' :: t).take (k + 1)) = [] := by
  simp [c_str]

theorem scenario_front :
    file_switch LOGGER_NONE ++ " (".toList ++ get_short_filename "a.c".toList ++ " ".toList
      ++ decimal 1 ++ ") ".toList = "[PHLOG]      (a.c 1) ".toList := by
  decide

theorem strip_ansi_tail (pf : Platform) (p : Str) (n : Int) (m : Str)
    (hp : '\x1b' ∉ get_short_filename p) (hm : '\x1b' ∉ m) :
    strip_ansi_aux false (COLOR_DARK pf ++ (" (".toList ++ (get_short_filename p ++ (" ".toList
      ++ (decimal n ++ (")".toList ++ (COLOR_NONE pf ++ (" ".toList ++ (m ++ (COLOR_DEFAULT pf
      ++ "\n".toList))))))))))
    = " (".toList ++ (get_short_filename p ++ (" ".toList ++ (decimal n ++ (") ".toList
      ++ (m ++ "\n".toList))))) := by
  rw [strip_COLOR_DARK, strip_ansi_plain _ _ (show '\x1b' ∉ " (".toList by decide),
    strip_ansi_plain _ _ hp, strip_ansi_plain _ _ (show '\x1b' ∉ " ".toList by decide),
    strip_ansi_plain _ _ (decimal_no_esc n),
    strip_ansi_plain _ _ (show '\x1b' ∉ ")".toList by decide), strip_COLOR_NONE,
    strip_ansi_plain _ _ (show '\x1b' ∉ " ".toList by decide), strip_ansi_plain _ _ hm,
    strip_COLOR_DEFAULT, show strip_ansi_aux false "\n".toList = "\n".toList from rfl]
  simp

/-- C3: `get_short_filename p` holds neither `/` nor `\`, and `p` is some front
part followed by it, the front part being empty or ending in a separator: it
is what follows the last separator. With no separator in `p` it is `p`. The
three example paths give `c.cpp`, `b.cpp` and `nofile`. -/
theorem C3_get_short_filename (p : Str) :
    ('/' ∉ get_short_filename p ∧ '\\' ∉ get_short_filename p)
    ∧ (∃ front, p = front ++ get_short_filename p ∧
        (front = [] ∨ ∃ init sep, front = init ++ [sep] ∧ (sep = '/' ∨ sep = '\\')))
    ∧ (('/' ∈ p ∨ '\\' ∈ p) ∨ get_short_filename p = p)
    ∧ get_short_filename "/a/b/c.cpp".toList = "c.cpp".toList
    ∧ get_short_filename "c:\\a\\b.cpp".toList = "b.cpp".toList
    ∧ get_short_filename "nofile".toList = "nofile".toList := by
  refine ⟨?_, ?_, ?_, by decide, by decide, by decide⟩
  · cases h : find_last_of p "/\\".toList with
    | none =>
      rw [get_short_filename_none p h]
      have := find_last_of_none _ _ h
      exact ⟨fun hc => this _ hc (by decide), fun hc => this _ hc (by decide)⟩
    | some i =>
      rw [get_short_filename_some p i h]
      obtain ⟨front, c, -, -, -, h4⟩ := find_last_of_some _ _ _ h
      exact ⟨fun hc => h4 _ hc (by decide), fun hc => h4 _ hc (by decide)⟩
  · cases h : find_last_of p "/\\".toList with
    | none =>
      rw [get_short_filename_none p h]
      exact ⟨[], rfl, Or.inl rfl⟩
    | some i =>
      rw [get_short_filename_some p i h]
      obtain ⟨front, c, h1, -, h3, -⟩ := find_last_of_some _ _ _ h
      refine ⟨front ++ [c], ?_, Or.inr ⟨front, c, rfl, ?_⟩⟩
      · simpa using h1
      · simpa using h3
  · cases h : find_last_of p "/\\".toList with
    | none => exact Or.inr (get_short_filename_none p h)
    | some i =>
      obtain ⟨front, c, h1, -, h3, -⟩ := find_last_of_some _ _ _ h
      have hc : c ∈ p := by
        rw [h1]
        simp
      have h3 : c = '/' ∨ c = '\\' := by simpa using h3
      rcases h3 with rfl | rfl
      · exact Or.inl (Or.inl hc)
      · exact Or.inl (Or.inr hc)

/-- C1, as amended: when the call gets past the console set-up, the file is
open and its stream has not failed, then for a level among the five and a
rendered message of at most 1023 chars the text appended to the file is the
level's label, `k` spaces with `k` at least 2, `(basename line) `, the message
up to its first NUL (all of it when it holds none) and a newline; for SUCCESS,
WARNING, ERROR and CRITICAL label and spaces fill 12 columns (3, 3, 5, 2
spaces); the call adds no escape character. -/
theorem C1_file_line (pf : Platform) (w : World) (p : Str) (n level : Int) (msg : Message)
    (label : Str) (hpf : pf.returns_early = false) (hopen : w.log_file.is_open = true)
    (hgood : w.log_file.fail = false)
    (hlevel : (level, label) ∈ [(LOGGER_NONE, "[PHLOG]".toList),
      (LOGGER_SUCCESS, "[SUCCESS]".toList), (LOGGER_WARNING, "[WARNING]".toList),
      (LOGGER_ERROR, "[ERROR]".toList), (LOGGER_CRITICAL, "[CRITICAL]".toList)])
    (hlen : msg.rendered.length ≤ 1023) :
    (∃ k, 2 ≤ k ∧ (level = LOGGER_NONE ∨ label.length + k = 12)
      ∧ (log pf w p n level msg).log_file.content = w.log_file.content ++ (label
          ++ List.replicate k ' ' ++ "(".toList ++ get_short_filename p ++ " ".toList
          ++ decimal n ++ ") ".toList ++ c_str msg.rendered ++ "\n".toList))
    ∧ ('\x00' ∉ msg.rendered → c_str msg.rendered = msg.rendered)
    ∧ ('\x1b' ∉ get_short_filename p → '\x1b' ∉ msg.rendered →
        '\x1b' ∉ file_added pf w p n level msg) := by
  have hfa := file_added_eq pf w p n level msg hpf hopen hgood
  rw [List.take_of_length_le hlen] at hfa
  have hc := log_impl_content_good pf w p n level msg hpf hopen hgood
  rw [c_str_vsnprintf, show 1024 - 1 = 1023 from rfl, List.take_of_length_le hlen] at hc
  have hsub : ∀ c ∈ c_str msg.rendered, c ∈ msg.rendered :=
    fun c h => (c_str_sublist msg.rendered).subset h
  have hd := decimal_no_esc n
  simp only [List.mem_cons, Prod.mk.injEq, List.mem_singleton, List.not_mem_nil,
    or_false] at hlevel
  refine ⟨?_, c_str_of_no_nul msg.rendered, ?_⟩
  · rw [log_eq, hc]
    rcases hlevel with ⟨rfl, rfl⟩ | ⟨rfl, rfl⟩ | ⟨rfl, rfl⟩ | ⟨rfl, rfl⟩ | ⟨rfl, rfl⟩
    · exact ⟨6, by decide, Or.inl rfl, by simp [file_switch, LOGGER_NONE, List.replicate]⟩
    · exact ⟨3, by decide, Or.inr (by decide), by
        simp [file_switch, LOGGER_NONE, LOGGER_SUCCESS, List.replicate]⟩
    · exact ⟨3, by decide, Or.inr (by decide), by
        simp [file_switch, LOGGER_NONE, LOGGER_SUCCESS, LOGGER_WARNING, List.replicate]⟩
    · exact ⟨5, by decide, Or.inr (by decide), by
        simp [file_switch, LOGGER_NONE, LOGGER_SUCCESS, LOGGER_WARNING, LOGGER_ERROR,
          List.replicate]⟩
    · exact ⟨2, by decide, Or.inr (by decide), by
        simp [file_switch, LOGGER_NONE, LOGGER_SUCCESS, LOGGER_WARNING, LOGGER_ERROR,
          LOGGER_CRITICAL, List.replicate]⟩
  · intro hp hm
    rw [hfa]
    have hm2 : '\x1b' ∉ c_str msg.rendered := fun h => hm (hsub _ h)
    rcases hlevel with ⟨rfl, rfl⟩ | ⟨rfl, rfl⟩ | ⟨rfl, rfl⟩ | ⟨rfl, rfl⟩ | ⟨rfl, rfl⟩ <;>
    simp [file_switch, LOGGER_NONE, LOGGER_SUCCESS, LOGGER_WARNING, LOGGER_ERROR,
      LOGGER_CRITICAL, hp, hm2, hd]

/-- C1, the claim as stated fails: with the file open, the CRITICAL call of the
scenario does not append `[CRITICAL] (main.cpp 42) disk full`; two spaces stand
between the label and the parenthesis. And a rendered message `a`, NUL, `b`
(format `"a%cb"`, argument 0) reaches the file as `a` only. -/
theorem C1_counterexample :
    World.opened.log_file.is_open = true ∧ World.opened.log_file.fail = false
    ∧ disk_full.rendered.length ≤ 1023
    ∧ file_added posix World.opened "main.cpp".toList 42 LOGGER_CRITICAL disk_full
      ≠ "[CRITICAL] (".toList ++ get_short_filename "main.cpp".toList ++ " ".toList
          ++ decimal 42 ++ ") ".toList ++ disk_full.rendered ++ "\n".toList
    ∧ file_added posix World.opened "main.cpp".toList 42 LOGGER_CRITICAL disk_full
      = "[CRITICAL]  (main.cpp 42) disk full\n".toList
    ∧ file_added posix World.opened "main.cpp".toList 42 LOGGER_CRITICAL
        ⟨['a', '\x00', 'b'], true, some "adb".toList⟩
      = "[CRITICAL]  (main.cpp 42) a\n".toList := by
  decide

/-- C1, amended claim at the scenario: the file receives
`[CRITICAL]  (main.cpp 42) disk full` and a newline. -/
theorem C1_file_line_witness :
    posix.returns_early = false ∧ World.opened.log_file.is_open = true
    ∧ World.opened.log_file.fail = false ∧ disk_full.rendered.length ≤ 1023
    ∧ (log posix World.opened "main.cpp".toList 42 LOGGER_CRITICAL disk_full).log_file.content
      = "[CRITICAL]  (main.cpp 42) disk full\n".toList := by
  obtain ⟨⟨k, -, hor, hc⟩, -, -⟩ := C1_file_line posix World.opened "main.cpp".toList 42
    LOGGER_CRITICAL disk_full "[CRITICAL]".toList (by decide) (by decide) (by decide)
    (by decide) (by decide)
  have hk : k = 2 := by
    rcases hor with h | h
    · exact absurd h (by decide)
    · have h10 : "[CRITICAL]".toList.length = 10 := by decide
      omega
  subst hk
  exact ⟨by decide, by decide, by decide, by decide, hc.trans (by decide)⟩

/-- C2, as amended: when the call gets past the console set-up and the message
reaches `vprintf` as rendered (file not open, or a format that fetches no
argument, or a second rendering that renders the same), then for a level among
the five the console receives, in order, the level's colour code, its label,
`a` spaces, the neutral colour code, `b` spaces, the dim colour code,
` (basename line)`, the neutral colour code, a space, the whole message, the
default colour code and a newline; with the escape sequences removed that is
the label, `a + b + 1` spaces (5, 3, 3, 5, 2 for NONE, SUCCESS, WARNING, ERROR,
CRITICAL), `(basename line) `, the message and a newline. -/
theorem C2_console_line (pf : Platform) (w : World) (p : Str) (n level : Int)
    (msg : Message) (fg label : Str) (a b : Nat) (hpf : pf.returns_early = false)
    (hmsg : w.log_file.is_open = false ∨ msg.takes_args = false
      ∨ msg.reread = some msg.rendered)
    (hlevel : (level, fg, label, a, b) ∈ [
      (LOGGER_NONE, COLOR_DEFAULT pf, "[PHLOG]".toList, 4, 0),
      (LOGGER_SUCCESS, COLOR_SUCCESS pf, "[SUCCESS]".toList, 1, 1),
      (LOGGER_WARNING, COLOR_WARNING pf, "[WARNING]".toList, 1, 1),
      (LOGGER_ERROR, COLOR_ERROR pf, "[ERROR]".toList, 1, 3),
      (LOGGER_CRITICAL, COLOR_CRITICAL pf, "[CRITICAL]".toList, 1, 0)]) :
    (log pf w p n level msg).stdout = w.stdout ++ (fg ++ label ++ List.replicate a ' '
      ++ COLOR_NONE pf ++ List.replicate b ' ' ++ COLOR_DARK pf ++ " (".toList
      ++ get_short_filename p ++ " ".toList ++ decimal n ++ ")".toList ++ COLOR_NONE pf
      ++ " ".toList ++ msg.rendered ++ COLOR_DEFAULT pf ++ "\n".toList)
    ∧ ('\x1b' ∉ get_short_filename p → '\x1b' ∉ msg.rendered →
        strip_ansi (console_added pf w p n level msg) = label
          ++ List.replicate (a + b + 1) ' ' ++ "(".toList ++ get_short_filename p
          ++ " ".toList ++ decimal n ++ ") ".toList ++ msg.rendered ++ "\n".toList) := by
  simp only [List.mem_cons, Prod.mk.injEq, List.mem_singleton, List.not_mem_nil,
    or_false] at hlevel
  have hca := console_added_eq pf w p n level msg hpf hmsg
  refine ⟨?_, ?_⟩
  · rw [log_stdout_eq pf w p n level msg hpf, hca]
    rcases hlevel with ⟨rfl, rfl, rfl, rfl, rfl⟩ | ⟨rfl, rfl, rfl, rfl, rfl⟩
      | ⟨rfl, rfl, rfl, rfl, rfl⟩ | ⟨rfl, rfl, rfl, rfl, rfl⟩ | ⟨rfl, rfl, rfl, rfl, rfl⟩ <;>
    simp [console_switch, LOGGER_NONE, LOGGER_SUCCESS, LOGGER_WARNING, LOGGER_ERROR,
      LOGGER_CRITICAL, List.replicate]
  · intro hp hm
    have ht := strip_ansi_tail pf p n msg.rendered hp hm
    rw [hca]
    unfold strip_ansi
    simp only [List.append_assoc]
    rcases hlevel with ⟨rfl, rfl, rfl, rfl, rfl⟩ | ⟨rfl, rfl, rfl, rfl, rfl⟩
      | ⟨rfl, rfl, rfl, rfl, rfl⟩ | ⟨rfl, rfl, rfl, rfl, rfl⟩ | ⟨rfl, rfl, rfl, rfl, rfl⟩
    · rw [console_switch_none]
      simp only [List.append_assoc]
      rw [strip_COLOR_DEFAULT, strip_ansi_plain _ _ (show '\x1b' ∉ "[PHLOG]    ".toList by decide),
        strip_COLOR_NONE, ht]
      simp [List.replicate]
    · rw [console_switch_success]
      simp only [List.append_assoc]
      rw [strip_COLOR_SUCCESS, strip_ansi_plain _ _ (show '\x1b' ∉ "[SUCCESS] ".toList by decide),
        strip_COLOR_NONE, strip_ansi_plain _ _ (show '\x1b' ∉ " ".toList by decide), ht]
      simp [List.replicate]
    · rw [console_switch_warning]
      simp only [List.append_assoc]
      rw [strip_COLOR_WARNING, strip_ansi_plain _ _ (show '\x1b' ∉ "[WARNING] ".toList by decide),
        strip_COLOR_NONE, strip_ansi_plain _ _ (show '\x1b' ∉ " ".toList by decide), ht]
      simp [List.replicate]
    · rw [console_switch_error]
      simp only [List.append_assoc]
      rw [strip_COLOR_ERROR, strip_ansi_plain _ _ (show '\x1b' ∉ "[ERROR] ".toList by decide),
        strip_COLOR_NONE, strip_ansi_plain _ _ (show '\x1b' ∉ "   ".toList by decide), ht]
      simp [List.replicate]
    · rw [console_switch_critical]
      simp only [List.append_assoc]
      rw [strip_COLOR_CRITICAL,
        strip_ansi_plain _ _ (show '\x1b' ∉ "[CRITICAL] ".toList by decide),
        strip_COLOR_NONE, ht]
      simp [List.replicate]

/-- C2, the claim as stated fails: with the file not open and the escape
sequences removed, the console text of the scenario is not
`[CRITICAL] (main.cpp 42) disk full`; the label is followed by its padding
space and the annotation by its own. And a message that itself holds an
escape sequence is not shown whole. -/
theorem C2_counterexample :
    World.initial.log_file.is_open = false
    ∧ strip_ansi (console_added posix World.initial "main.cpp".toList 42 LOGGER_CRITICAL
      disk_full) ≠ "[CRITICAL] (main.cpp 42) disk full\n".toList
    ∧ strip_ansi (console_added posix World.initial "main.cpp".toList 42 LOGGER_CRITICAL
      disk_full) = "[CRITICAL]  (main.cpp 42) disk full\n".toList
    ∧ strip_ansi (console_added posix World.initial "main.cpp".toList 42 LOGGER_CRITICAL
      (Message.plain "\x1b[1mok".toList)) = "[CRITICAL]  (main.cpp 42) ok\n".toList := by
  decide

/-- C2, amended claim at the scenario with the file not open: the console
shows `[CRITICAL]  (main.cpp 42) disk full`. -/
theorem C2_console_line_witness :
    posix.returns_early = false ∧ World.initial.log_file.is_open = false
    ∧ strip_ansi (console_added posix World.initial "main.cpp".toList 42 LOGGER_CRITICAL
        disk_full) = "[CRITICAL]  (main.cpp 42) disk full\n".toList :=
  ⟨by decide, by decide,
    ((C2_console_line posix World.initial "main.cpp".toList 42 LOGGER_CRITICAL
      disk_full (COLOR_CRITICAL posix) "[CRITICAL]".toList 1 0 (by decide)
      (Or.inl (by decide)) (by decide)).2 (by decide) (by decide)).trans (by decide)⟩

/-- C5, what the code does: in a `_WIN32` build without a usable console a
refused open makes `setup` return true and print no record at all; the same
call in a posix build prints the one CRITICAL line. -/
theorem C5_setup_silent_without_console :
    (setup win32_no_console World.initial false "include/phlog.h".toList).1 = true
    ∧ (setup win32_no_console World.initial false "include/phlog.h".toList).2.stdout = []
    ∧ (setup win32_no_console World.initial false
        "include/phlog.h".toList).2.log_file.is_open = false
    ∧ (setup posix World.initial false "include/phlog.h".toList).1 = true
    ∧ strip_ansi (setup posix World.initial false "include/phlog.h".toList).2.stdout
      = "[CRITICAL]  (phlog.h 68) Failed to initialize phlog\n".toList := by
  decide

/-- C6, what the code does: with `"n=%d"` and 7 the console shows `n=7` while
the file is not open, but with the file open `vprintf` reads the arguments
that `vsnprintf` has fetched already and shows other text (here `n=100`), or
the process is killed before message and newline (the scenario's call); and
in a `_WIN32` build without a usable console a closed file gets no console
line at all. -/
theorem C6_console_differs_with_file_open :
    World.initial.log_file.is_open = false ∧ World.opened.log_file.is_open = true
    ∧ strip_ansi (console_added posix World.initial "a.c".toList 1 LOGGER_ERROR
        ⟨"n=7".toList, true, some "n=100".toList⟩) = "[ERROR]     (a.c 1) n=7\n".toList
    ∧ strip_ansi (console_added posix World.opened "a.c".toList 1 LOGGER_ERROR
        ⟨"n=7".toList, true, some "n=100".toList⟩) = "[ERROR]     (a.c 1) n=100\n".toList
    ∧ strip_ansi (console_added posix World.initial "main.cpp".toList 42 LOGGER_CRITICAL
        disk_full) = "[CRITICAL]  (main.cpp 42) disk full\n".toList
    ∧ strip_ansi (console_added posix World.opened "main.cpp".toList 42 LOGGER_CRITICAL
        disk_full) = "[CRITICAL]  (main.cpp 42) ".toList
    ∧ (log posix World.opened "main.cpp".toList 42 LOGGER_CRITICAL disk_full).died = true
    ∧ console_added win32_no_console World.initial "a.c".toList 1 LOGGER_ERROR
        (Message.plain "no disk".toList) = [] := by
  decide

/-- C7, as amended: when the call gets past the console set-up, the file is
open and its stream has not failed, the message part of the file line is the
first 1023 chars of the rendered message cut at their first NUL, never more
than 1023 chars; for a message without NUL it is exactly its first 1023
chars, and all of it when it has at most 1023 chars; the console receives all
of the message when the format fetches no argument or a second rendering
renders the same. -/
theorem C7_file_truncation (pf : Platform) (w : World) (p : Str) (n level : Int)
    (msg : Message) (hpf : pf.returns_early = false) (hopen : w.log_file.is_open = true)
    (hgood : w.log_file.fail = false) :
    (log pf w p n level msg).log_file.content = w.log_file.content ++ (file_switch level
      ++ " (".toList ++ get_short_filename p ++ " ".toList ++ decimal n ++ ") ".toList
      ++ c_str (msg.rendered.take 1023) ++ "\n".toList)
    ∧ (c_str (msg.rendered.take 1023)).length ≤ 1023
    ∧ ('\x00' ∉ msg.rendered → c_str (msg.rendered.take 1023) = msg.rendered.take 1023)
    ∧ ('\x00' ∉ msg.rendered → msg.rendered.length ≤ 1023 →
        c_str (msg.rendered.take 1023) = msg.rendered)
    ∧ (msg.takes_args = false ∨ msg.reread = some msg.rendered →
        msg.rendered <:+: console_added pf w p n level msg) := by
  refine ⟨?_, ?_, fun hnul => ?_, fun hnul hlen => ?_, fun hm => ?_⟩
  · rw [log_eq, log_impl_content_good pf w p n level msg hpf hopen hgood, c_str_vsnprintf]
  · exact (c_str_length_le _).trans (by simp)
  · exact c_str_of_no_nul _ (fun h => hnul (List.mem_of_mem_take h))
  · rw [List.take_of_length_le hlen, c_str_of_no_nul msg.rendered hnul]
  · rw [console_added_eq pf w p n level msg hpf (Or.inr hm)]
    exact infix_mid _ _ _ _

/-- C7, the claim as stated fails: the three chars `a`, NUL, `b` (the rendering
of `"a%cb"` with argument 0) are at most 1023 chars, yet the file does not
carry them whole; its message part is `a`. A message of 1025 chars that opens
with NUL leaves an empty message part, not its first 1023 chars. -/
theorem C7_counterexample :
    World.opened.log_file.is_open = true ∧ World.opened.log_file.fail = false
    ∧ ['a', '\x00', 'b'].length ≤ 1023
    ∧ file_added posix World.opened "a.c".toList 1 LOGGER_NONE
        ⟨['a', '\x00', 'b'], true, some "adb".toList⟩
      ≠ file_switch LOGGER_NONE ++ " (".toList ++ get_short_filename "a.c".toList
          ++ " ".toList ++ decimal 1 ++ ") ".toList ++ ['a', '\x00', 'b'] ++ "\n".toList
    ∧ file_added posix World.opened "a.c".toList 1 LOGGER_NONE
        ⟨['a', '\x00', 'b'], true, some "adb".toList⟩
      = "[PHLOG]      (a.c 1) a\n".toList
    ∧ 1023 < ('\x00' :: List.replicate 1024 'x').length
    ∧ (('\x00' :: List.replicate 1024 'x').take 1023).length = 1023
    ∧ file_added posix World.opened "a.c".toList 1 LOGGER_NONE
        ⟨'\x00' :: List.replicate 1024 'x', true, none⟩
      = "[PHLOG]      (a.c 1) ".toList ++ [] ++ "\n".toList := by
  refine ⟨by decide, by decide, by decide, by decide, by decide, ?_, ?_, ?_⟩
  · rw [List.length_cons, List.length_replicate]
    decide
  · rw [List.length_take, List.length_cons, List.length_replicate]
    decide
  · rw [file_added_eq posix World.opened _ _ _ _ (by decide) (by decide) (by decide),
      scenario_front]
    exact congrArg (fun t => "[PHLOG]      (a.c 1) ".toList ++ t ++ "\n".toList)
      (c_str_take_nul (List.replicate 1024 'x') 1022)

/-- C7, amended claim on a message of 1030 chars `x` (a format without
conversions): the file line carries 1023 of them, the console all 1030. -/
theorem C7_file_truncation_witness :
    posix.returns_early = false ∧ World.opened.log_file.is_open = true
    ∧ World.opened.log_file.fail = false
    ∧ file_added posix World.opened "a.c".toList 1 LOGGER_NONE
        (Message.plain (List.replicate 1030 'x'))
      = "[PHLOG]      (a.c 1) ".toList ++ List.replicate 1023 'x' ++ "\n".toList
    ∧ List.replicate 1030 'x'
        <:+: console_added posix World.opened "a.c".toList 1 LOGGER_NONE
          (Message.plain (List.replicate 1030 'x')) := by
  have h := C7_file_truncation posix World.opened "a.c".toList 1 LOGGER_NONE
    (Message.plain (List.replicate 1030 'x')) (by decide) (by decide) (by decide)
  refine ⟨by decide, by decide, by decide, ?_, h.2.2.2.2 (Or.inl rfl)⟩
  have h3 := h.2.2.1 (fun hm => absurd (List.mem_replicate.mp hm).2 (by decide))
  unfold file_added
  rw [h.1, h3, List.drop_left, scenario_front]
  show _ ++ List.take 1023 (List.replicate 1030 'x') ++ _ = _
  rw [List.take_replicate]
  rfl

/-- C9, what the code does: after a first `setup` and one log call the file
holds that call's line; a second `setup` then reports success and leaves the
file open, but its `open` has made the stream fail, so the next log call
appends nothing. And in a `_WIN32` build without a usable console a log call
with the file open appends nothing either. -/
theorem C9_open_file_line_dropped :
    World.logged_once.log_file = ⟨true, false, "[PHLOG]      (a.c 1) one\n".toList⟩
    ∧ (setup posix World.logged_once true "include/phlog.h".toList).1 = false
    ∧ World.set_up_twice.log_file.is_open = true
    ∧ World.set_up_twice.log_file.content = "[PHLOG]      (a.c 1) one\n".toList
    ∧ (log posix World.set_up_twice "b.c".toList 2 LOGGER_ERROR
        (Message.plain "two".toList)).log_file.content
      = "[PHLOG]      (a.c 1) one\n".toList
    ∧ World.opened.log_file.is_open = true
    ∧ (log win32_no_console World.opened "b.c".toList 2 LOGGER_ERROR
        (Message.plain "two".toList)).log_file.content = World.opened.log_file.content
    ∧ (log posix World.opened "b.c".toList 2 LOGGER_ERROR
        (Message.plain "two".toList)).log_file.content
      = "[ERROR]     (b.c 2) two\n".toList := by
  decide

/-- C10, what the code does: in a `_WIN32` build whose console handle is
invalid, or whose console mode cannot be read, the CRITICAL call of the
scenario returns at once; with the file open, neither the console nor the
file receives anything. -/
theorem C10_win32_returns_early :
    log ⟨true, false, false, true⟩ World.opened "main.cpp".toList 42 LOGGER_CRITICAL
        disk_full = World.opened
    ∧ log ⟨true, false, true, false⟩ World.opened "main.cpp".toList 42 LOGGER_CRITICAL
        disk_full = World.opened
    ∧ World.opened.stdout = [] ∧ World.opened.log_file = ⟨true, false, []⟩ := by
  decide

end phlog
